import Mathlib

/-!
Verification of the AbroadBuddy budget allocation engine.

Shallow embedding conventions:
* Money amounts are rationals (exact arithmetic over the numeric formulas of
  the source).
* Calendar dates are integers counting days, with day 0 chosen to be a Monday,
  so that date-fns `startOfWeek(d, weekStartsOn: 1)` becomes `d - d % 7` and
  `differenceInDays(a, b)` becomes `a - b`.
* Free-text fields that no computation under verification reads (notes, trip
  names, wishlist priority) are omitted from the records.
* `crypto.randomUUID()` is modelled as a caller-supplied fresh id.
-/

namespace AbroadBuddy

/-- Budget mode, from `src/types.ts`: `'total' | 'remaining' | 'tracking'`. -/
inductive BudgetMode where
  | total
  | remaining
  | tracking
deriving DecidableEq, Repr

/-- Trip record, from `src/types.ts` (current schema plus the legacy
`estimatedCost` / optional `actualCost` fields still read by
`budgetCalculations.ts`). -/
structure Trip where
  startDate : Int
  endDate : Int
  prepaidCost : ℚ
  plannedCost : ℚ
  estimatedCost : ℚ
  actualCost : Option ℚ
deriving DecidableEq, Repr

/-- Expense record, from `src/types.ts`. -/
structure Expense where
  id : String
  description : String
  amount : ℚ
  date : Int
  category : Option String
deriving DecidableEq, Repr

/-- Wishlist item, from `src/types.ts` (only `estimatedCost` is read by the
computations under verification). -/
structure WishlistItem where
  estimatedCost : ℚ
deriving DecidableEq, Repr

/-- Budget record, from `src/types.ts` (current schema). -/
structure Budget where
  budgetMode : BudgetMode
  semesterBudget : ℚ
  startDate : Int
  endDate : Int
  spent : ℚ
  plannedSpending : ℚ
deriving DecidableEq, Repr

/-- Per-week derived record, from `src/types.ts` (`WeeklyBudget`). The
`week` key, a `yyyy-MM-dd` string in the source, is the week's Monday here. -/
structure WeeklyBudget where
  week : Int
  budget : ℚ
  spent : ℚ
  remaining : ℚ
deriving DecidableEq, Repr

/-- Legacy trip cost figure: `trip.actualCost || trip.estimatedCost`
(JavaScript falsy test: `0` and `undefined` both fall back). -/
def tripLegacyCost (t : Trip) : ℚ :=
  match t.actualCost with
  | some a => if a = 0 then t.estimatedCost else a
  | none => t.estimatedCost

/-- `startOfWeek(d, weekStartsOn: 1)`: the Monday at or before day `d`
(day 0 is a Monday; `Int.emod` is nonnegative). -/
def mondayOf (d : Int) : Int := d - d % 7

/-- `eachWeekOfInterval(start, end, weekStartsOn: 1)`: the Mondays of the
weeks meeting the inclusive interval, from `mondayOf s` to `mondayOf e`. -/
def eachWeekOfInterval (s e : Int) : List Int :=
  (List.range (((mondayOf e - mondayOf s) / 7).toNat + 1)).map
    (fun i => mondayOf s + 7 * (i : Int))

/-- Trip duration in days:
`Math.max(1, Math.ceil((tripEnd - tripStart) / dayMs))` from
`calculateWeeklyBudgets`; at day granularity the ratio is the exact integer
`tripEnd - tripStart`. -/
def tripDurationDays (t : Trip) : Int := max 1 (t.endDate - t.startDate)

/-- `Math.ceil(tripDuration / 7)` from `calculateWeeklyBudgets`
(`(d + 6) / 7` is the ceiling for positive `d`). -/
def weeksInTrip (t : Trip) : Int := (tripDurationDays t + 6) / 7

/-- `costPerWeek = (trip.actualCost || trip.estimatedCost) / weeksInTrip`. -/
def tripCostPerWeek (t : Trip) : ℚ := tripLegacyCost t / ((weeksInTrip t : ℤ) : ℚ)

/-- Overlap test from `calculateWeeklyBudgets`: the trip's start or end falls
inside the week `[weekStart, weekStart + 6]`, or the trip contains the week
(`isWithinInterval` is inclusive). -/
def tripOverlapsWeek (t : Trip) (weekStart : Int) : Prop :=
  (weekStart ≤ t.startDate ∧ t.startDate ≤ weekStart + 6) ∨
  (weekStart ≤ t.endDate ∧ t.endDate ≤ weekStart + 6) ∨
  (t.startDate ≤ weekStart ∧ weekStart + 6 ≤ t.endDate)

instance (t : Trip) (w : Int) : Decidable (tripOverlapsWeek t w) := by
  unfold tripOverlapsWeek; infer_instance

/-- The `trips.reduce` of `calculateWeeklyBudgets`: cost attributed to the
week starting at `weekStart`. -/
def tripSpentForWeek (trips : List Trip) (weekStart : Int) : ℚ :=
  trips.foldl
    (fun sum trip =>
      if tripOverlapsWeek trip weekStart then sum + tripCostPerWeek trip else sum)
    0

/-- The `expenses.reduce` of `calculateWeeklyBudgets`: expenses dated inside
the week starting at `weekStart`. -/
def expenseSpentForWeek (expenses : List Expense) (weekStart : Int) : ℚ :=
  expenses.foldl
    (fun sum expense =>
      if weekStart ≤ expense.date ∧ expense.date ≤ weekStart + 6 then
        sum + expense.amount
      else sum)
    0

/-- `calculateWeeklyBudgets` from `src/utils/budgetCalculations.ts`. -/
def calculateWeeklyBudgets (budget : Budget) (trips : List Trip)
    (expenses : List Expense) : List WeeklyBudget :=
  let weeks := eachWeekOfInterval budget.startDate budget.endDate
  let totalWeeks : ℚ := (weeks.length : ℚ)
  let weeklyBudgetAmount := budget.semesterBudget / totalWeeks
  weeks.map (fun weekStart =>
    let tripSpent := tripSpentForWeek trips weekStart
    let expenseSpent := expenseSpentForWeek expenses weekStart
    let weekSpent := tripSpent + expenseSpent
    { week := weekStart
      budget := weeklyBudgetAmount
      spent := weekSpent
      remaining := weeklyBudgetAmount - weekSpent })

/-- `calculateRemainingBudget` from `src/utils/budgetCalculations.ts`. -/
def calculateRemainingBudget (budget : Budget) (trips : List Trip)
    (expenses : List Expense) : ℚ :=
  let tripSpent := trips.foldl (fun sum trip => sum + tripLegacyCost trip) 0
  let expenseSpent := expenses.foldl (fun sum expense => sum + expense.amount) 0
  budget.semesterBudget - (tripSpent + expenseSpent)

/-- `getCurrentWeekBudget` from `src/utils/budgetCalculations.ts`; the
source's `new Date()` is the explicit `today` parameter. -/
def getCurrentWeekBudget (weeklyBudgets : List WeeklyBudget) (today : Int) :
    Option WeeklyBudget :=
  weeklyBudgets.find? (fun w => w.week = mondayOf today)

/-- The messages `getRecommendations` can push, identified by which rule
produced them; the insufficient-funds message carries the figures it
interpolates (trip count, total upcoming cost, remaining). The literal
message text is presentation and is abstracted away. -/
inductive Recommendation where
  | overBudget
  | lowBalance
  | overWeekBudget
  | lowWeekBudget
  | upcomingTripsWarning (tripCount : Nat) (totalUpcomingCost remaining : ℚ)
  | allGood
deriving DecidableEq, Repr

/-- First `if / else if` block of `getRecommendations` (overall budget). -/
def budgetLevelRecs (remaining limit : ℚ) : List Recommendation :=
  if remaining < 0 then [Recommendation.overBudget]
  else if remaining < limit * 0.1 then [Recommendation.lowBalance]
  else []

/-- Second `if / else if` block of `getRecommendations` (current week); the
source guards both branches with `currentWeek &&`. -/
def weekLevelRecs : Option WeeklyBudget → List Recommendation
  | some currentWeek =>
      if currentWeek.remaining < 0 then [Recommendation.overWeekBudget]
      else if currentWeek.remaining < currentWeek.budget * 0.2 then
        [Recommendation.lowWeekBudget]
      else []
  | none => []

/-- Upcoming-trips block of `getRecommendations`: trips whose `startDate`
is strictly in the future, their total legacy cost, and the warning pushed
only when there is at least one such trip and the total exceeds `remaining`. -/
def upcomingTripRecs (trips : List Trip) (today : Int) (remaining : ℚ) :
    List Recommendation :=
  let upcomingTrips := trips.filter (fun trip => today < trip.startDate)
  if 0 < upcomingTrips.length then
    let totalUpcomingCost :=
      upcomingTrips.foldl (fun sum trip => sum + tripLegacyCost trip) 0
    if remaining < totalUpcomingCost then
      [Recommendation.upcomingTripsWarning upcomingTrips.length
        totalUpcomingCost remaining]
    else []
  else []

/-- `getRecommendations` from `src/utils/budgetCalculations.ts`: the three
rule blocks push in order, and the affirmation is pushed only when the list
is still empty at the end. -/
def getRecommendations (budget : Budget) (trips : List Trip)
    (weeklyBudgets : List WeeklyBudget) (expenses : List Expense)
    (today : Int) : List Recommendation :=
  let remaining := calculateRemainingBudget budget trips expenses
  let currentWeek := getCurrentWeekBudget weeklyBudgets today
  let recommendations :=
    budgetLevelRecs remaining budget.semesterBudget ++
    weekLevelRecs currentWeek ++
    upcomingTripRecs trips today remaining
  if recommendations = [] then [Recommendation.allGood] else recommendations

/-! Dashboard derived figures, `src/components/CalendarView.tsx` lines
1384-1402. -/

/-- `trips.reduce((sum, trip) => sum + trip.prepaidCost, 0)`. -/
def tripsPrepaid (trips : List Trip) : ℚ :=
  trips.foldl (fun sum trip => sum + trip.prepaidCost) 0

/-- `trips.reduce((sum, trip) => sum + trip.plannedCost, 0)`. -/
def tripsPlanned (trips : List Trip) : ℚ :=
  trips.foldl (fun sum trip => sum + trip.plannedCost) 0

/-- `expenses.reduce((sum, expense) => sum + expense.amount, 0)`. -/
def expensesTotal (expenses : List Expense) : ℚ :=
  expenses.foldl (fun sum expense => sum + expense.amount) 0

/-- `wishlist.reduce((sum, item) => sum + item.estimatedCost, 0)`. -/
def wishlistTotalOf (wishlist : List WishlistItem) : ℚ :=
  wishlist.foldl (fun sum item => sum + item.estimatedCost) 0

/-- Dashboard `totalSpent = tripsPrepaid + expensesTotal`. -/
def dashboardTotalSpent (trips : List Trip) (expenses : List Expense) : ℚ :=
  tripsPrepaid trips + expensesTotal expenses

/-- Dashboard `remaining = budget.semesterBudget - totalSpent` (budget
present). -/
def dashboardRemaining (budget : Budget) (trips : List Trip)
    (expenses : List Expense) : ℚ :=
  budget.semesterBudget - dashboardTotalSpent trips expenses

/-- Dashboard `remainingAfterPlanned = remaining - totalPlanned`. -/
def dashboardRemainingAfterPlanned (budget : Budget) (trips : List Trip)
    (expenses : List Expense) : ℚ :=
  dashboardRemaining budget trips expenses - tripsPlanned trips

/-! Calendar derived figures, `src/components/CalendarView.tsx` lines
203-256. -/

/-- `hasLimit = budget.budgetMode !== 'tracking' && budget.semesterBudget > 0`. -/
def hasLimit (budget : Budget) : Prop :=
  budget.budgetMode ≠ BudgetMode.tracking ∧ 0 < budget.semesterBudget

instance (budget : Budget) : Decidable (hasLimit budget) := by
  unfold hasLimit; infer_instance

/-- Calendar `remainingBudget` (lines 219-232): zero without a limit; in
remaining mode `semesterBudget - totalPlanned`; in total mode
`semesterBudget - totalSpent - totalPlanned` with `totalSpent = budget.spent`. -/
def calendarRemainingBudget (budget : Budget) (trips : List Trip) : ℚ :=
  if hasLimit budget then
    if budget.budgetMode = BudgetMode.remaining then
      budget.semesterBudget - tripsPlanned trips
    else
      budget.semesterBudget - budget.spent - tripsPlanned trips
  else 0

/-- Remaining-days computation (lines 234-247): `today`, `periodStart`,
`periodEnd` are day numbers; `differenceInDays` is subtraction. -/
def remainingDays (today periodStart periodEnd : Int) : Int :=
  if today < periodStart then (periodEnd - periodStart) + 1
  else if periodEnd < today then 1
  else (periodEnd - today) + 1

/-- `dailyBudget = hasLimit ? remainingBudget / remainingDays : 0` (line 251). -/
def calendarDailyBudget (budget : Budget) (trips : List Trip) (today : Int) : ℚ :=
  if hasLimit budget then
    calendarRemainingBudget budget trips /
      ((remainingDays today budget.startDate budget.endDate : ℤ) : ℚ)
  else 0

/-- `weeklyBudget = dailyBudget * 7` (line 255). -/
def calendarWeeklyBudget (budget : Budget) (trips : List Trip) (today : Int) : ℚ :=
  calendarDailyBudget budget trips today * 7

/-! Stateful Remaining-mode operations. The observable state is the stored
budget together with the expense ledger. -/

/-- Snapshot of the stored budget and expense ledger. -/
structure AppState where
  budget : Budget
  expenses : List Expense
deriving DecidableEq, Repr

/-- Remaining-mode expense confirmation handler,
`src/components/CalendarView.tsx` lines 2248-2257: `handleAddExpense`
persists the expense, and the handler also saves the budget with
`semesterBudget` decreased by the expense amount. -/
def recordExpenseRemaining (st : AppState) (expense : Expense) : AppState :=
  { budget :=
      { st.budget with semesterBudget := st.budget.semesterBudget - expense.amount }
    expenses := st.expenses ++ [expense] }

/-- `handleDeleteExpense` from `src/components/CalendarView.tsx` lines
1556-1567: `storage.deleteExpense(id)` removes the expense row and the data
is refreshed; no write touches `budget.semesterBudget`. -/
def handleDeleteExpenseWeb (st : AppState) (id : String) : AppState :=
  { st with expenses := st.expenses.filter (fun e => e.id ≠ id) }

/-- `deleteExpense` from
`GlobeBudget-iOS/.../WishlistFormView.swift` lines 547-555: in remaining
mode the balance is restored by the expense amount before the row is
deleted. -/
def deleteExpenseIOS (st : AppState) (expense : Expense) : AppState :=
  { budget :=
      if st.budget.budgetMode = BudgetMode.remaining then
        { st.budget with
            semesterBudget := st.budget.semesterBudget + expense.amount }
      else st.budget
    expenses := st.expenses.filter (fun e => e.id ≠ expense.id) }

/-- The synthetic expense built by `confirmUpdateBalance`
(`src/components/CalendarView.tsx` lines 1528-1535); the interpolated
`notes` string is not modelled. -/
def balanceUpdateExpense (freshId : String) (difference : ℚ) (today : Int) :
    Expense :=
  { id := freshId
    description := "Balance Update"
    amount := difference
    date := today
    category := some "Balance Adjustment" }

/-- `confirmUpdateBalance` from `src/components/CalendarView.tsx` lines
1504-1554 (success path): `difference = currentBalance - newBalance`; a
synthetic expense is persisted only when `difference > 0`, then the budget
is saved with `semesterBudget = newBalance`. -/
def confirmUpdateBalance (st : AppState) (newBalance : ℚ) (today : Int)
    (freshId : String) : AppState :=
  let currentBalance := st.budget.semesterBudget
  let difference := currentBalance - newBalance
  let updatedBudget := { st.budget with semesterBudget := newBalance }
  let expenses :=
    if 0 < difference then
      st.expenses ++ [balanceUpdateExpense freshId difference today]
    else st.expenses
  { budget := updatedBudget, expenses := expenses }

/-- `confirmUpdateBalance` with fallible storage writes: `addOk` is whether
`storage.addExpense` succeeds, `saveOk` whether `storage.saveBudget` does.
The source awaits them sequentially inside one `try`; a failure aborts the
rest but nothing already persisted is rolled back. -/
def runUpdateBalance (st : AppState) (newBalance : ℚ) (today : Int)
    (freshId : String) (addOk saveOk : Bool) : AppState :=
  let difference := st.budget.semesterBudget - newBalance
  if 0 < difference then
    if addOk then
      let st1 :=
        { st with
            expenses := st.expenses ++ [balanceUpdateExpense freshId difference today] }
      if saveOk then
        { st1 with budget := { st1.budget with semesterBudget := newBalance } }
      else st1
    else st
  else
    if saveOk then { st with budget := { st.budget with semesterBudget := newBalance } }
    else st

/-- The Remaining-mode expense confirmation handler with fallible writes:
the source (lines 2248-2257) fires `handleAddExpense(pendingExpense)`
without awaiting it and then calls `storage.saveBudget` unconditionally, so
the two writes succeed or fail independently. -/
def runRecordExpenseRemaining (st : AppState) (expense : Expense)
    (addOk saveOk : Bool) : AppState :=
  let st1 := if addOk then { st with expenses := st.expenses ++ [expense] } else st
  if saveOk then
    { st1 with
        budget :=
          { st1.budget with
              semesterBudget := st1.budget.semesterBudget - expense.amount } }
  else st1

/-- `ExchangeRateService.convertToUSD` from the iOS service: multiply by the
current rate, then by 1.03 when the transaction fee is requested. The
service's published rate is the explicit `eurToUsd` parameter. -/
def convertToUSD (euros : ℚ) (eurToUsd : ℚ) (includeTransactionFee : Bool) : ℚ :=
  let usd := euros * eurToUsd
  if includeTransactionFee then usd * 1.03 else usd

/-! Bridge lemmas: the `reduce`-style left folds of the source equal sums
over mapped lists. -/

theorem foldl_add_eq_sum {α : Type} (g : α → ℚ) (l : List α) (init : ℚ) :
    l.foldl (fun sum x => sum + g x) init = init + (l.map g).sum := by
  induction l generalizing init with
  | nil => simp
  | cons a l ih => simp only [List.foldl_cons, List.map_cons, List.sum_cons, ih]; ring

theorem foldl_add_ite_eq_sum {α : Type} (p : α → Prop) [DecidablePred p]
    (g : α → ℚ) (l : List α) (init : ℚ) :
    l.foldl (fun sum x => if p x then sum + g x else sum) init =
      init + (l.map (fun x => if p x then g x else 0)).sum := by
  induction l generalizing init with
  | nil => simp
  | cons a l ih =>
    by_cases h : p a <;>
      simp only [List.foldl_cons, List.map_cons, List.sum_cons, ih, h,
        if_true, if_false, ite_true, ite_false] <;> ring

theorem tripsPrepaid_eq_sum (trips : List Trip) :
    tripsPrepaid trips = (trips.map Trip.prepaidCost).sum := by
  simpa using foldl_add_eq_sum Trip.prepaidCost trips 0

theorem tripsPlanned_eq_sum (trips : List Trip) :
    tripsPlanned trips = (trips.map Trip.plannedCost).sum := by
  simpa using foldl_add_eq_sum Trip.plannedCost trips 0

theorem expensesTotal_eq_sum (expenses : List Expense) :
    expensesTotal expenses = (expenses.map Expense.amount).sum := by
  simpa using foldl_add_eq_sum Expense.amount expenses 0

/-- C1: for every Budget in Total mode with spent ≤ limit, the dashboard
figures satisfy `remaining + spent = limit` (spent being the sum of prepaid
trip costs and expense amounts) and
`remainingAfterPlanned = remaining - totalPlanned`, totalPlanned being the
sum of planned trip costs. -/
theorem c1_total_mode_remaining (budget : Budget) (trips : List Trip)
    (expenses : List Expense) (_hmode : budget.budgetMode = BudgetMode.total)
    (_hspent :
      (trips.map Trip.prepaidCost).sum + (expenses.map Expense.amount).sum ≤
        budget.semesterBudget) :
    dashboardRemaining budget trips expenses +
        ((trips.map Trip.prepaidCost).sum + (expenses.map Expense.amount).sum) =
      budget.semesterBudget ∧
    dashboardRemainingAfterPlanned budget trips expenses =
      dashboardRemaining budget trips expenses -
        (trips.map Trip.plannedCost).sum := by
  constructor
  · simp only [dashboardRemaining, dashboardTotalSpent, tripsPrepaid_eq_sum,
      expensesTotal_eq_sum]
    ring
  · simp only [dashboardRemainingAfterPlanned, tripsPlanned_eq_sum]

/-- Witness for C1 at a concrete Total-mode budget: limit 1000, one trip
with 150 prepaid and 100 planned, one expense of 50. -/
theorem c1_total_mode_remaining_witness :
    dashboardRemaining
        { budgetMode := BudgetMode.total, semesterBudget := 1000, startDate := 0,
          endDate := 29, spent := 200, plannedSpending := 100 }
        [{ startDate := 3, endDate := 5, prepaidCost := 150, plannedCost := 100,
           estimatedCost := 0, actualCost := none }]
        [{ id := "e1", description := "groceries", amount := 50, date := 4,
           category := none }] +
      (([({ startDate := 3, endDate := 5, prepaidCost := 150, plannedCost := 100,
            estimatedCost := 0, actualCost := none } : Trip)].map
          Trip.prepaidCost).sum +
        ([({ id := "e1", description := "groceries", amount := 50, date := 4,
             category := none } : Expense)].map Expense.amount).sum) = 1000 := by
  exact (c1_total_mode_remaining _ _ _ rfl (by norm_num [List.map, List.sum])).1

/-- C3: `confirmUpdateBalance` with old balance `B_old` and new balance
`B_new`, `difference = B_old - B_new`: when `difference > 0` exactly one
synthetic expense of amount `difference` with category "Balance Adjustment"
is appended and the limit becomes `B_new`; when `difference < 0` no expense
is recorded and the limit becomes `B_new`; when `difference = 0` the state
is unchanged. -/
theorem c3_balance_update (st : AppState) (newBalance : ℚ) (today : Int)
    (freshId : String) :
    (0 < st.budget.semesterBudget - newBalance →
      (confirmUpdateBalance st newBalance today freshId).expenses =
          st.expenses ++
            [{ id := freshId, description := "Balance Update",
               amount := st.budget.semesterBudget - newBalance, date := today,
               category := some "Balance Adjustment" }] ∧
        (confirmUpdateBalance st newBalance today freshId).budget.semesterBudget =
          newBalance) ∧
    (st.budget.semesterBudget - newBalance < 0 →
      (confirmUpdateBalance st newBalance today freshId).expenses = st.expenses ∧
        (confirmUpdateBalance st newBalance today freshId).budget.semesterBudget =
          newBalance) ∧
    (st.budget.semesterBudget - newBalance = 0 →
      confirmUpdateBalance st newBalance today freshId = st) := by
  refine ⟨fun hpos => ?_, fun hneg => ?_, fun hzero => ?_⟩
  · simp [confirmUpdateBalance, balanceUpdateExpense, hpos]
  · simp [confirmUpdateBalance, not_lt.mpr (le_of_lt hneg)]
  · have hEq : newBalance = st.budget.semesterBudget := by linarith
    simp [confirmUpdateBalance, hEq]

/-- Witness for C3 at a concrete state: balance 500 updated to 450 appends
the synthetic 50 expense and sets the limit to 450. -/
theorem c3_balance_update_witness :
    (confirmUpdateBalance
        { budget :=
            { budgetMode := BudgetMode.remaining, semesterBudget := 500,
              startDate := 0, endDate := 29, spent := 0, plannedSpending := 0 }
          expenses := [] }
        450 10 "adj1").expenses =
      [] ++
        [{ id := "adj1", description := "Balance Update", amount := 500 - 450,
           date := 10, category := some "Balance Adjustment" }] := by
  exact ((c3_balance_update
    { budget :=
        { budgetMode := BudgetMode.remaining, semesterBudget := 500,
          startDate := 0, endDate := 29, spent := 0, plannedSpending := 0 }
      expenses := [] }
    450 10 "adj1").1 (by norm_num)).1

/-- C4: with `periodEnd ≥ periodStart`, `remainingDays` matches the three
specified cases, is always at least 1 (so the daily-allowance division never
divides by zero), the daily allowance is `remainingBudget / remainingDays`
whenever a limit exists, and the weekly allowance is seven times the daily
one. -/
theorem c4_remaining_days (budget : Budget) (trips : List Trip) (today : Int)
    (hperiod : budget.startDate ≤ budget.endDate) :
    (today < budget.startDate →
      remainingDays today budget.startDate budget.endDate =
        (budget.endDate - budget.startDate) + 1) ∧
    (budget.endDate < today →
      remainingDays today budget.startDate budget.endDate = 1) ∧
    (budget.startDate ≤ today → today ≤ budget.endDate →
      remainingDays today budget.startDate budget.endDate =
        (budget.endDate - today) + 1) ∧
    1 ≤ remainingDays today budget.startDate budget.endDate ∧
    ((remainingDays today budget.startDate budget.endDate : ℤ) : ℚ) ≠ 0 ∧
    (hasLimit budget →
      calendarDailyBudget budget trips today =
        calendarRemainingBudget budget trips /
          ((remainingDays today budget.startDate budget.endDate : ℤ) : ℚ)) ∧
    calendarWeeklyBudget budget trips today =
      calendarDailyBudget budget trips today * 7 := by
  have hdays : 1 ≤ remainingDays today budget.startDate budget.endDate := by
    unfold remainingDays
    split_ifs with h1 h2 <;> omega
  refine ⟨fun h => ?_, fun h => ?_, fun h1 h2 => ?_, hdays, ?_, fun hlim => ?_, rfl⟩
  · simp [remainingDays, h]
  · have : ¬ today < budget.startDate := by omega
    simp [remainingDays, this, h]
  · have hA : ¬ today < budget.startDate := by omega
    have hB : ¬ budget.endDate < today := by omega
    simp [remainingDays, hA, hB]
  · have hne : (remainingDays today budget.startDate budget.endDate : ℤ) ≠ 0 := by
      omega
    exact_mod_cast hne
  · simp [calendarDailyBudget, hlim]

/-- Witness for C4 at the spec scenario: period day 0 to day 29, today day
9, yielding 21 remaining days. -/
theorem c4_remaining_days_witness :
    remainingDays 9
        ({ budgetMode := BudgetMode.total, semesterBudget := 1000, startDate := 0,
           endDate := 29, spent := 200, plannedSpending := 100 } : Budget).startDate
        ({ budgetMode := BudgetMode.total, semesterBudget := 1000, startDate := 0,
           endDate := 29, spent := 200, plannedSpending := 100 } : Budget).endDate =
      (29 - 9) + 1 := by
  exact (c4_remaining_days
    { budgetMode := BudgetMode.total, semesterBudget := 1000, startDate := 0,
      endDate := 29, spent := 200, plannedSpending := 100 }
    [] 9 (by norm_num)).2.2.1 (by norm_num) (by norm_num)

/-- C6: in Tracking mode every derived figure is zero: the calendar
remaining budget, the daily allowance, and hence the weekly allowance,
whatever the trips are. -/
theorem c6_tracking_mode_zero (budget : Budget) (trips : List Trip)
    (today : Int) (hmode : budget.budgetMode = BudgetMode.tracking) :
    calendarRemainingBudget budget trips = 0 ∧
    calendarDailyBudget budget trips today = 0 ∧
    calendarWeeklyBudget budget trips today = 0 := by
  have hnolim : ¬ hasLimit budget := by
    intro h
    exact h.1 hmode
  refine ⟨?_, ?_, ?_⟩
  · simp [calendarRemainingBudget, hnolim]
  · simp [calendarDailyBudget, hnolim]
  · simp [calendarWeeklyBudget, calendarDailyBudget, hnolim]

/-- Witness for C6 at a concrete Tracking-mode budget with a nonzero trip
list. -/
theorem c6_tracking_mode_zero_witness :
    calendarRemainingBudget
        { budgetMode := BudgetMode.tracking, semesterBudget := 0, startDate := 0,
          endDate := 29, spent := 300, plannedSpending := 0 }
        [{ startDate := 3, endDate := 5, prepaidCost := 150, plannedCost := 100,
           estimatedCost := 0, actualCost := none }] = 0 := by
  exact (c6_tracking_mode_zero
    { budgetMode := BudgetMode.tracking, semesterBudget := 0, startDate := 0,
      endDate := 29, spent := 300, plannedSpending := 0 }
    [{ startDate := 3, endDate := 5, prepaidCost := 150, plannedCost := 100,
       estimatedCost := 0, actualCost := none }] 9 rfl).1

/-- C9: `convertToUSD amount rate fee` equals `amount * rate * 1.03` when
the fee is requested and `amount * rate` otherwise; the 3% surcharge is
applied exactly when requested. -/
theorem c9_convert_to_usd (amount rate : ℚ) (includeTransactionFee : Bool) :
    convertToUSD amount rate includeTransactionFee =
      if includeTransactionFee then amount * rate * 1.03 else amount * rate := by
  cases includeTransactionFee <;> simp [convertToUSD]

/-- C2 fails on the web delete path: starting from a Remaining-mode budget
with limit 500, recording a 50 expense lowers the limit to 450 as claimed,
but the web `handleDeleteExpense` then removes the expense while leaving the
limit at 450 instead of restoring 500; the iOS `deleteExpense` on the same
state does restore 500, matching the spec's round-trip law. -/
theorem c2_web_delete_does_not_restore :
    (recordExpenseRemaining
          { budget :=
              { budgetMode := BudgetMode.remaining, semesterBudget := 500,
                startDate := 0, endDate := 29, spent := 0, plannedSpending := 0 }
            expenses := [] }
          { id := "e1", description := "dinner", amount := 50, date := 10,
            category := none }).budget.semesterBudget = 450 ∧
    (handleDeleteExpenseWeb
          (recordExpenseRemaining
            { budget :=
                { budgetMode := BudgetMode.remaining, semesterBudget := 500,
                  startDate := 0, endDate := 29, spent := 0, plannedSpending := 0 }
              expenses := [] }
            { id := "e1", description := "dinner", amount := 50, date := 10,
              category := none })
          "e1").expenses = [] ∧
    (handleDeleteExpenseWeb
          (recordExpenseRemaining
            { budget :=
                { budgetMode := BudgetMode.remaining, semesterBudget := 500,
                  startDate := 0, endDate := 29, spent := 0, plannedSpending := 0 }
              expenses := [] }
            { id := "e1", description := "dinner", amount := 50, date := 10,
              category := none })
          "e1").budget.semesterBudget = 450 ∧
    (deleteExpenseIOS
          (recordExpenseRemaining
            { budget :=
                { budgetMode := BudgetMode.remaining, semesterBudget := 500,
                  startDate := 0, endDate := 29, spent := 0, plannedSpending := 0 }
              expenses := [] }
            { id := "e1", description := "dinner", amount := 50, date := 10,
              category := none })
          { id := "e1", description := "dinner", amount := 50, date := 10,
            category := none }).budget.semesterBudget = 500 := by
  refine ⟨?_, ?_, ?_, ?_⟩
  · norm_num [recordExpenseRemaining]
  · simp [recordExpenseRemaining, handleDeleteExpenseWeb]
  · norm_num [recordExpenseRemaining, handleDeleteExpenseWeb]
  · norm_num [recordExpenseRemaining, deleteExpenseIOS]

/-- C8 fails on the web write paths: updating the balance from 500 to 450
with `storage.addExpense` succeeding and `storage.saveBudget` failing leaves
the synthetic expense persisted while the limit stays 500 (a partial
effect); recording a Remaining-mode expense with `storage.addExpense`
failing and `storage.saveBudget` succeeding decrements the limit to 450
with no expense persisted — in both cases the observable state changes even
though one write failed. -/
theorem c8_writes_not_atomic :
    (runUpdateBalance
          { budget :=
              { budgetMode := BudgetMode.remaining, semesterBudget := 500,
                startDate := 0, endDate := 29, spent := 0, plannedSpending := 0 }
            expenses := [] }
          450 10 "adj1" true false).expenses =
        [balanceUpdateExpense "adj1" 50 10] ∧
    (runUpdateBalance
          { budget :=
              { budgetMode := BudgetMode.remaining, semesterBudget := 500,
                startDate := 0, endDate := 29, spent := 0, plannedSpending := 0 }
            expenses := [] }
          450 10 "adj1" true false).budget.semesterBudget = 500 ∧
    (runRecordExpenseRemaining
          { budget :=
              { budgetMode := BudgetMode.remaining, semesterBudget := 500,
                startDate := 0, endDate := 29, spent := 0, plannedSpending := 0 }
            expenses := [] }
          { id := "e1", description := "dinner", amount := 50, date := 10,
            category := none }
          false true).expenses = [] ∧
    (runRecordExpenseRemaining
          { budget :=
              { budgetMode := BudgetMode.remaining, semesterBudget := 500,
                startDate := 0, endDate := 29, spent := 0, plannedSpending := 0 }
            expenses := [] }
          { id := "e1", description := "dinner", amount := 50, date := 10,
            category := none }
          false true).budget.semesterBudget = 450 := by
  refine ⟨?_, ?_, ?_, ?_⟩
  · norm_num [runUpdateBalance, balanceUpdateExpense]
  · norm_num [runUpdateBalance]
  · simp [runRecordExpenseRemaining]
  · norm_num [runRecordExpenseRemaining]

/-- The Mondays of the two weeks of the 14-day period used in the C5
scenarios. -/
theorem eachWeekOfInterval_two_weeks : eachWeekOfInterval 0 13 = [0, 7] := by
  decide

/-- C5: in the even-split weekly view, each listed week's spent figure sums,
over exactly the trips overlapping that week (trip start or end inside the
week, or the trip containing it), the trip cost divided by
`ceil(max(1, tripEnd - tripStart) / 7)` weeks; concretely, over a two-week
period a trip spanning days 0-6 (7 calendar days inside one week) puts its
whole cost on that week and nothing on the other, and a trip spanning days
3-12 (10 calendar days across both weeks) puts exactly half its cost on each
week. -/
theorem c5_even_split_distribution :
    (∀ (budget : Budget) (trips : List Trip) (entry : WeeklyBudget),
      entry ∈ calculateWeeklyBudgets budget trips [] →
      entry.spent =
        (trips.map (fun t =>
          if (entry.week ≤ t.startDate ∧ t.startDate ≤ entry.week + 6) ∨
             (entry.week ≤ t.endDate ∧ t.endDate ≤ entry.week + 6) ∨
             (t.startDate ≤ entry.week ∧ entry.week + 6 ≤ t.endDate) then
            tripLegacyCost t /
              (((max 1 (t.endDate - t.startDate) + 6) / 7 : ℤ) : ℚ)
          else 0)).sum) ∧
    (∀ c limit : ℚ,
      calculateWeeklyBudgets
          { budgetMode := BudgetMode.total, semesterBudget := limit,
            startDate := 0, endDate := 13, spent := 0, plannedSpending := 0 }
          [{ startDate := 0, endDate := 6, prepaidCost := 0, plannedCost := 0,
             estimatedCost := c, actualCost := none }] [] =
        [{ week := 0, budget := limit / 2, spent := c,
           remaining := limit / 2 - c },
         { week := 7, budget := limit / 2, spent := 0,
           remaining := limit / 2 - 0 }]) ∧
    (∀ c limit : ℚ,
      calculateWeeklyBudgets
          { budgetMode := BudgetMode.total, semesterBudget := limit,
            startDate := 0, endDate := 13, spent := 0, plannedSpending := 0 }
          [{ startDate := 3, endDate := 12, prepaidCost := 0, plannedCost := 0,
             estimatedCost := c, actualCost := none }] [] =
        [{ week := 0, budget := limit / 2, spent := c / 2,
           remaining := limit / 2 - c / 2 },
         { week := 7, budget := limit / 2, spent := c / 2,
           remaining := limit / 2 - c / 2 }]) := by
  refine ⟨?_, ?_, ?_⟩
  · intro budget trips entry hentry
    simp only [calculateWeeklyBudgets, List.mem_map] at hentry
    obtain ⟨w, _hw, rfl⟩ := hentry
    simp only [expenseSpentForWeek, List.foldl_nil, add_zero, tripSpentForWeek]
    rw [foldl_add_ite_eq_sum (fun t => tripOverlapsWeek t w) tripCostPerWeek
      trips 0, zero_add]
    congr 1
  · intro c limit
    simp only [calculateWeeklyBudgets, eachWeekOfInterval_two_weeks,
      List.length_cons, List.length_nil, List.map_cons, List.map_nil,
      tripSpentForWeek, expenseSpentForWeek, List.foldl_cons, List.foldl_nil,
      tripCostPerWeek, tripLegacyCost, weeksInTrip, tripDurationDays,
      tripOverlapsWeek]
    norm_num
  · intro c limit
    simp only [calculateWeeklyBudgets, eachWeekOfInterval_two_weeks,
      List.length_cons, List.length_nil, List.map_cons, List.map_nil,
      tripSpentForWeek, expenseSpentForWeek, List.foldl_cons, List.foldl_nil,
      tripCostPerWeek, tripLegacyCost, weeksInTrip, tripDurationDays,
      tripOverlapsWeek]
    norm_num

/-- Witness for C5 at a concrete two-week budget and the week entry the
overlapping 7-day trip feeds: its spent figure equals the even-split sum. -/
theorem c5_even_split_distribution_witness :
    ({ week := 0, budget := 50, spent := 70, remaining := -20 } :
        WeeklyBudget).spent =
      (([({ startDate := 0, endDate := 6, prepaidCost := 0, plannedCost := 0,
            estimatedCost := 70, actualCost := none } : Trip)]).map (fun t =>
        if ((0 : Int) ≤ t.startDate ∧ t.startDate ≤ (0 : Int) + 6) ∨
           ((0 : Int) ≤ t.endDate ∧ t.endDate ≤ (0 : Int) + 6) ∨
           (t.startDate ≤ (0 : Int) ∧ (0 : Int) + 6 ≤ t.endDate) then
          tripLegacyCost t /
            (((max 1 (t.endDate - t.startDate) + 6) / 7 : ℤ) : ℚ)
        else 0)).sum := by
  exact c5_even_split_distribution.1
    { budgetMode := BudgetMode.total, semesterBudget := 100, startDate := 0,
      endDate := 13, spent := 0, plannedSpending := 0 }
    [{ startDate := 0, endDate := 6, prepaidCost := 0, plannedCost := 0,
       estimatedCost := 70, actualCost := none }]
    { week := 0, budget := 50, spent := 70, remaining := -20 }
    (by rw [(c5_even_split_distribution.2.1 70 100 :)]; norm_num)

/-! Helper facts about the three rule blocks of `getRecommendations`. -/

theorem calculateRemainingBudget_eq_sum (budget : Budget) (trips : List Trip)
    (expenses : List Expense) :
    calculateRemainingBudget budget trips expenses =
      budget.semesterBudget -
        ((trips.map tripLegacyCost).sum + (expenses.map Expense.amount).sum) := by
  simp only [calculateRemainingBudget, foldl_add_eq_sum, zero_add]

theorem budgetLevelRecs_cases (remaining limit : ℚ) :
    budgetLevelRecs remaining limit = [] ∨
    budgetLevelRecs remaining limit = [Recommendation.overBudget] ∨
    budgetLevelRecs remaining limit = [Recommendation.lowBalance] := by
  unfold budgetLevelRecs
  split_ifs <;> simp

theorem weekLevelRecs_cases (currentWeek : Option WeeklyBudget) :
    weekLevelRecs currentWeek = [] ∨
    weekLevelRecs currentWeek = [Recommendation.overWeekBudget] ∨
    weekLevelRecs currentWeek = [Recommendation.lowWeekBudget] := by
  cases currentWeek with
  | none => simp [weekLevelRecs]
  | some cw =>
    simp only [weekLevelRecs]
    split_ifs <;> simp

theorem upcomingTripRecs_cases (trips : List Trip) (today : Int)
    (remaining : ℚ) :
    upcomingTripRecs trips today remaining = [] ∨
    ∃ n totalCost rem,
      upcomingTripRecs trips today remaining =
        [Recommendation.upcomingTripsWarning n totalCost rem] := by
  simp only [upcomingTripRecs]
  split_ifs
  · exact Or.inr ⟨_, _, _, rfl⟩
  · exact Or.inl rfl
  · exact Or.inl rfl

theorem getRecommendations_eq (budget : Budget) (trips : List Trip)
    (weeklyBudgets : List WeeklyBudget) (expenses : List Expense)
    (today : Int) :
    getRecommendations budget trips weeklyBudgets expenses today =
      if budgetLevelRecs (calculateRemainingBudget budget trips expenses)
            budget.semesterBudget ++
          weekLevelRecs (getCurrentWeekBudget weeklyBudgets today) ++
          upcomingTripRecs trips today
            (calculateRemainingBudget budget trips expenses) = [] then
        [Recommendation.allGood]
      else
        budgetLevelRecs (calculateRemainingBudget budget trips expenses)
            budget.semesterBudget ++
          weekLevelRecs (getCurrentWeekBudget weeklyBudgets today) ++
          upcomingTripRecs trips today
            (calculateRemainingBudget budget trips expenses) := rfl

/-- C7 fails as stated on rule 5: with a zero budget, a single past trip of
cost 10 (so remaining = -10), no week entries and no expenses, the sum of
upcoming-trip costs (an empty sum, 0) exceeds remaining, yet the output is
only the over-budget warning — no insufficient-funds-for-upcoming-trips
warning is produced, because the source fires that rule only when at least
one upcoming trip exists. -/
theorem c7_counterexample_rule5 :
    getRecommendations
        { budgetMode := BudgetMode.total, semesterBudget := 0, startDate := 0,
          endDate := 13, spent := 0, plannedSpending := 0 }
        [{ startDate := 0, endDate := 1, prepaidCost := 0, plannedCost := 0,
           estimatedCost := 10, actualCost := none }] [] [] 20 =
      [Recommendation.overBudget] ∧
    calculateRemainingBudget
        { budgetMode := BudgetMode.total, semesterBudget := 0, startDate := 0,
          endDate := 13, spent := 0, plannedSpending := 0 }
        [{ startDate := 0, endDate := 1, prepaidCost := 0, plannedCost := 0,
           estimatedCost := 10, actualCost := none }] [] <
      ((([({ startDate := 0, endDate := 1, prepaidCost := 0, plannedCost := 0,
             estimatedCost := 10, actualCost := none } : Trip)]).filter
          (fun t => (20 : Int) < t.startDate)).map tripLegacyCost).sum := by
  constructor
  · rw [getRecommendations_eq]
    norm_num [calculateRemainingBudget, tripLegacyCost, budgetLevelRecs,
      weekLevelRecs, getCurrentWeekBudget, upcomingTripRecs, List.filter]
  · norm_num [calculateRemainingBudget, tripLegacyCost, List.filter]

/-- C7 amended: the rules fire in the stated priority order with the stated
thresholds, except that the insufficient-funds rule additionally requires at
least one upcoming (future-dated) trip; the affirmation appears exactly when
no rule fired. -/
theorem c7_amended_rule_order (budget : Budget) (trips : List Trip)
    (weeklyBudgets : List WeeklyBudget) (expenses : List Expense)
    (today : Int) :
    getRecommendations budget trips weeklyBudgets expenses today =
      (let remaining :=
        budget.semesterBudget -
          ((trips.map tripLegacyCost).sum + (expenses.map Expense.amount).sum)
      let currentWeek := weeklyBudgets.find? (fun w => w.week = mondayOf today)
      let upcoming := trips.filter (fun t => today < t.startDate)
      let totalUpcomingCost := (upcoming.map tripLegacyCost).sum
      let rules :=
        (if remaining < 0 then [Recommendation.overBudget]
         else if remaining < 0.1 * budget.semesterBudget then
           [Recommendation.lowBalance]
         else []) ++
        (match currentWeek with
         | some cw =>
             if cw.remaining < 0 then [Recommendation.overWeekBudget]
             else if cw.remaining < 0.2 * cw.budget then
               [Recommendation.lowWeekBudget]
             else []
         | none => []) ++
        (if upcoming ≠ [] ∧ remaining < totalUpcomingCost then
           [Recommendation.upcomingTripsWarning upcoming.length
             totalUpcomingCost remaining]
         else [])
      if rules = [] then [Recommendation.allGood] else rules) := by
  rw [getRecommendations_eq]
  have hrem := calculateRemainingBudget_eq_sum budget trips expenses
  have h1 :
      budgetLevelRecs (calculateRemainingBudget budget trips expenses)
          budget.semesterBudget =
        (if calculateRemainingBudget budget trips expenses < 0 then
          [Recommendation.overBudget]
         else if calculateRemainingBudget budget trips expenses <
             0.1 * budget.semesterBudget then
           [Recommendation.lowBalance]
         else []) := by
    unfold budgetLevelRecs
    rw [mul_comm]
  have h2 :
      weekLevelRecs (getCurrentWeekBudget weeklyBudgets today) =
        (match weeklyBudgets.find? (fun w => w.week = mondayOf today) with
         | some cw =>
             if cw.remaining < 0 then [Recommendation.overWeekBudget]
             else if cw.remaining < 0.2 * cw.budget then
               [Recommendation.lowWeekBudget]
             else []
         | none => []) := by
    unfold getCurrentWeekBudget
    cases weeklyBudgets.find? (fun w => w.week = mondayOf today) with
    | none => rfl
    | some cw =>
      simp only [weekLevelRecs]
      rw [mul_comm]
  have h3 :
      upcomingTripRecs trips today
          (calculateRemainingBudget budget trips expenses) =
        (if trips.filter (fun t => today < t.startDate) ≠ [] ∧
            calculateRemainingBudget budget trips expenses <
              ((trips.filter (fun t => today < t.startDate)).map
                tripLegacyCost).sum then
          [Recommendation.upcomingTripsWarning
            (trips.filter (fun t => today < t.startDate)).length
            ((trips.filter (fun t => today < t.startDate)).map
              tripLegacyCost).sum
            (calculateRemainingBudget budget trips expenses)]
         else []) := by
    simp only [upcomingTripRecs]
    rw [foldl_add_eq_sum, zero_add]
    by_cases hne : trips.filter (fun t => today < t.startDate) = []
    · simp [hne]
    · have hlen : 0 < (trips.filter (fun t => today < t.startDate)).length :=
        List.length_pos.mpr hne
      by_cases hlt :
          calculateRemainingBudget budget trips expenses <
            ((trips.filter (fun t => today < t.startDate)).map
              tripLegacyCost).sum
      · simp [hlen, hne, hlt]
      · simp [hlen, hne, hlt]
  rw [h1, h2, h3, hrem]

/-- C10: `getRecommendations` always returns between 1 and 3 messages, the
over-budget and low-balance warnings never appear together, the
over-budget-this-week and low-week-balance warnings never appear together,
and the positive affirmation appears only as the sole element. -/
theorem c10_output_invariants (budget : Budget) (trips : List Trip)
    (weeklyBudgets : List WeeklyBudget) (expenses : List Expense)
    (today : Int) :
    1 ≤ (getRecommendations budget trips weeklyBudgets expenses today).length ∧
    (getRecommendations budget trips weeklyBudgets expenses today).length ≤ 3 ∧
    ¬(Recommendation.overBudget ∈
        getRecommendations budget trips weeklyBudgets expenses today ∧
      Recommendation.lowBalance ∈
        getRecommendations budget trips weeklyBudgets expenses today) ∧
    ¬(Recommendation.overWeekBudget ∈
        getRecommendations budget trips weeklyBudgets expenses today ∧
      Recommendation.lowWeekBudget ∈
        getRecommendations budget trips weeklyBudgets expenses today) ∧
    (Recommendation.allGood ∈
        getRecommendations budget trips weeklyBudgets expenses today →
      getRecommendations budget trips weeklyBudgets expenses today =
        [Recommendation.allGood]) := by
  rw [getRecommendations_eq]
  rcases budgetLevelRecs_cases (calculateRemainingBudget budget trips expenses)
      budget.semesterBudget with hA | hA | hA <;>
    rcases weekLevelRecs_cases (getCurrentWeekBudget weeklyBudgets today) with
      hB | hB | hB <;>
    rcases upcomingTripRecs_cases trips today
        (calculateRemainingBudget budget trips expenses) with
      hC | ⟨n, totalCost, rem, hC⟩ <;>
    simp [hA, hB, hC]

end AbroadBuddy
